import Mathlib

/-!
Shallow embedding of the organizing engine in `file_organizer.py`
(`py-organizer`): configuration, run statistics, filtering, year
resolution, duplicate resolution, the move/simulate step and the
`organize` orchestrator, over an explicit filesystem model.

Conventions of the embedding:
* A filesystem path is its list of components (`pathlib.Path`).
* `datetime.fromtimestamp(st_mtime)` is embedded as the stat result
  carrying the broken-down `DateTime` directly; a stat that raises
  `OSError` is a `none` mtime.
* Python exceptions are `Except` values carrying the engine state at the
  point of raising (logs / statistics / filesystem effects so far).
* Log emissions are recorded structurally as `(LogMsg, LogLevel)` pairs;
  the rendered message text is presentation only.
* `shutil.move` is modelled as relocation of the source subtree onto the
  destination path, replacing any existing destination entry; the
  environment chooses which moves raise (`FS.failMoves`). The claims
  verified here do not depend on the library's move-into-directory
  special case.
-/

namespace PyOrganizer

/-- Broken-down calendar time, the result of `datetime.fromtimestamp` on a
modification timestamp. -/
structure DateTime where
  year : Nat
  month : Nat
  day : Nat
  hour : Nat
  minute : Nat
  second : Nat
deriving DecidableEq, Repr

/-- Zero-padded decimal rendering of one `strftime` field. -/
def padNum (w : Nat) (n : Nat) : String :=
  ⟨List.replicate (w - (Nat.repr n).length) '0' ++ (Nat.repr n).data⟩

/-- `strftime("%Y%m%d_%H%M%S")` as used by the rename policy
(`file_organizer.py` line 214). -/
def fmtTimestamp (t : DateTime) : String :=
  padNum 4 t.year ++ padNum 2 t.month ++ padNum 2 t.day ++ "_" ++
  padNum 2 t.hour ++ padNum 2 t.minute ++ padNum 2 t.second

/-- A filesystem path, as its list of components. -/
abbrev Path := List String

/-- `pathlib.Path.name`: the final component. -/
def pathName (p : Path) : String := p.getLastD ""

/-- `pathlib.Path.parent`. -/
def pathParent (p : Path) : Path := p.dropLast

/-- Index of the last dot in a component (`str.rfind`), `none` if absent. -/
def findLastDot : List Char → Option Nat
  | [] => none
  | c :: rest =>
    match findLastDot rest with
    | some i => some (i + 1)
    | none => if c = '.' then some 0 else none

/-- `pathlib.PurePath.stem` applied to a final component: everything before
the last dot, provided that dot is neither the first nor the last
character. -/
def pyStem (name : String) : String :=
  match findLastDot name.data with
  | some i =>
    if 0 < i ∧ i < name.data.length - 1 then ⟨name.data.take i⟩ else name
  | none => name

/-- `pathlib.PurePath.suffix` applied to a final component. -/
def pySuffix (name : String) : String :=
  match findLastDot name.data with
  | some i =>
    if 0 < i ∧ i < name.data.length - 1 then ⟨name.data.drop i⟩ else ""
  | none => ""

/-- `str.lstrip(".")`. -/
def lstripDot (s : String) : String := ⟨s.data.dropWhile (· == '.')⟩

/-- Metadata of one filesystem object. A `none` mtime models a `stat`
call that raises. -/
structure Entry where
  isDir : Bool
  mtime : Option DateTime
  size : Nat
deriving DecidableEq, Repr

/-- The filesystem, as a finite list of existing objects plus the
environment's choice of which move operations raise. -/
structure FS where
  entries : List (Path × Entry)
  failMoves : List (Path × Path)
deriving DecidableEq, Repr

def FS.lookup (fs : FS) (p : Path) : Option Entry :=
  (fs.entries.find? (fun e => decide (e.1 = p))).map (·.2)

/-- `Path.exists()`. -/
def FS.pathExists (fs : FS) (p : Path) : Bool := (fs.lookup p).isSome

/-- `Path.is_dir()` (`False` on a missing path). -/
def FS.isDirB (fs : FS) (p : Path) : Bool :=
  match fs.lookup p with
  | some e => e.isDir
  | none => false

/-- `Path.stat()`, returning modification time and size; `none` models a
raised `OSError`. -/
def FS.stat (fs : FS) (p : Path) : Option (DateTime × Nat) :=
  match fs.lookup p with
  | some e => e.mtime.map (fun t => (t, e.size))
  | none => none

/-- Whether `p` is a direct child of `dir`. -/
def isChildOf (p dir : Path) : Bool :=
  dir.isPrefixOf p && decide (p.length = dir.length + 1)

/-- `Path.iterdir()`: direct children in discovery order; raises when the
source is missing or not a directory. -/
def FS.iterdir (fs : FS) (dir : Path) : Except String (List Path) :=
  if fs.isDirB dir then
    .ok ((fs.entries.filter (fun e => isChildOf e.1 dir)).map (·.1))
  else
    .error "source unreadable"

/-- `Path.mkdir(parents=True, exist_ok=True)` for the year directory.
The engine only ever creates `target/<year>` directly under the existing
target, so a single new directory entry is added when absent. -/
def FS.mkdirp (fs : FS) (p : Path) : FS :=
  if fs.pathExists p then fs
  else { fs with entries := fs.entries ++ [(p, ⟨true, none, 0⟩)] }

/-- Relocate one path under the moved subtree. -/
def relocatePath (src dst p : Path) : Path :=
  if src.isPrefixOf p then dst ++ p.drop src.length else p

/-- `shutil.move(src, dst)`: `none` models a raised exception (chosen by
the environment through `failMoves`); on success the destination entry,
if any, is replaced and the source subtree is relocated. -/
def FS.doMove (fs : FS) (src dst : Path) : Option FS :=
  if (src, dst) ∈ fs.failMoves then none
  else some { fs with
    entries := (fs.entries.filter (fun e => !decide (e.1 = dst))).map
      (fun e => (relocatePath src dst e.1, e.2)) }

/-- `DuplicateMode` (`file_organizer.py` lines 15-20). -/
inductive DuplicateMode
  | interactive
  | skip
  | rename
  | overwrite
deriving DecidableEq, Repr

/-- `OrganizerStats` (`file_organizer.py` lines 23-30). -/
structure OrganizerStats where
  files_moved : Nat := 0
  files_renamed : Nat := 0
  files_skipped : Nat := 0
  dirs_moved : Nat := 0
  errors : Nat := 0
deriving DecidableEq, Repr

/-- `OrganizerConfig` (`file_organizer.py` lines 33-50), with the
`__post_init__` defaulting of the target already applied. -/
structure OrganizerConfig where
  source_dir : Path
  target_dir : Path
  dry_run : Bool
  files_only : Bool
  verbose : Bool
  duplicate_mode : DuplicateMode
  included_folders : Option (List String)
  excluded_folders : Option (List String)
  target_year : Option Nat
  file_types : Option (List String)
deriving DecidableEq, Repr

/-- Python truthiness of an optional list (`None` and `[]` are falsy). -/
def optListTruthy : Option (List String) → Bool
  | none => false
  | some l => !l.isEmpty

/-- Python truthiness of an optional integer (`None` and `0` are falsy). -/
def optNatTruthy : Option Nat → Bool
  | none => false
  | some n => n != 0

inductive LogLevel
  | info
  | success
  | warning
  | error
deriving DecidableEq, Repr

/-- Structured log emissions, one constructor per `self.log(...)` call
site of the engine. -/
inductive LogMsg
  | startingMsg
  | sourceMsg (p : Path)
  | targetMsg (p : Path)
  | dryRunNotice
  | couldNotGetYear (name : String)
  | skippingFiltered (name : String)
  | processingCount (n : Nat)
  | operationCancelled
  | duplicateFound (itemType name : String)
  | skippingDuplicate (itemType : String)
  | overwritingExisting (itemType : String)
  | renamingTo (name : String)
  | interactiveNotSupported (itemType : String)
  | skippingNoDate (name : String)
  | wouldMove (itemType name : String) (dest : Path)
  | movedMsg (itemType name : String) (dest : Path)
  | processingItem (idx total : Nat) (itemType name : String)
  | errorProcessing (name msg : String)
  | errorReadingSource (msg : String)
  | separatorMsg
  | summaryMsg
  | filesMovedMsg (n : Nat)
  | dirsMovedMsg (n : Nat)
  | filesRenamedMsg (n : Nat)
  | filesSkippedMsg (n : Nat)
  | errorsMsg (n : Nat)
  | dryRunReminder
deriving DecidableEq, Repr

/-- The run-local mutable state of a `FileOrganizer` together with the
observable callback streams. -/
structure EngineState where
  fs : FS
  stats : OrganizerStats
  logs : List (LogMsg × LogLevel)
  progressEvents : List (Nat × Nat)
  cancelled : Bool
deriving DecidableEq, Repr

/-- `self.log(message, level)`. -/
def elog (s : EngineState) (m : LogMsg) (lv : LogLevel) : EngineState :=
  { s with logs := s.logs ++ [(m, lv)] }

/-- `self.update_progress(current, total)`. -/
def eprogress (s : EngineState) (cur total : Nat) : EngineState :=
  { s with progressEvents := s.progressEvents ++ [(cur, total)] }

/-- Python exceptions: the error text together with the engine state at
the point of raising. -/
abbrev ExceptSt (α : Type) := Except (String × EngineState) α

/-- The hard-coded self-protection names (`file_organizer.py` line 137). -/
def reservedNames : List String :=
  ["org_docs.sh", "org_docs_gui.py", "file_organizer.py"]

/-- `FileOrganizer.get_item_year` (lines 100-121): the calendar year of
the modification time when it lies in `[1900, 2100]`, otherwise `none`;
a stat failure logs a warning and yields `none`. -/
def get_item_year (s : EngineState) (path : Path) : Option Nat × EngineState :=
  match s.fs.stat path with
  | some (t, _) =>
    (if 1900 ≤ t.year ∧ t.year ≤ 2100 then some t.year else none, s)
  | none => (none, elog s (.couldNotGetYear (pathName path)) .warning)

/-- `FileOrganizer.should_process_item` (lines 123-166). -/
def should_process_item (cfg : OrganizerConfig) (s : EngineState)
    (item : Path) (is_directory : Bool) : Bool × EngineState :=
  let name := pathName item
  if name ∈ reservedNames then (false, s)
  else if is_directory && cfg.files_only then (false, s)
  else if is_directory && optListTruthy cfg.included_folders then
    (decide (name ∈ cfg.included_folders.getD []), s)
  else if is_directory && (optListTruthy cfg.excluded_folders &&
      decide (name ∈ cfg.excluded_folders.getD [])) then
    (false, s)
  else if !is_directory && optListTruthy cfg.file_types &&
      !decide (lstripDot (pySuffix name) ∈ cfg.file_types.getD []) then
    (false, s)
  else if optNatTruthy cfg.target_year then
    let r := get_item_year s item
    if r.1 ≠ cfg.target_year then (false, r.2) else (true, r.2)
  else (true, s)

/-- The candidate-probing loop of the rename policy
(`while new_dest.exists():`, lines 221-225), as fuel recursion on the
counter: returns the first counter value at or after `start` whose
candidate does not exist. The fuel bound is one more than the number of
filesystem entries; `findFreeIdx_free` below shows it is never reached. -/
def findFreeIdx (fs : FS) (mk : Nat → Path) : Nat → Nat → Nat
  | 0, k => k
  | fuel + 1, k =>
    if fs.pathExists (mk k) then findFreeIdx fs mk fuel (k + 1) else k

/-- The initial rename candidate (line 217): destination stem, underscore,
formatted source mtime, then the destination extension. -/
def renameFirstCand (dest : Path) (ts : String) : Path :=
  pathParent dest ++ [pyStem (pathName dest) ++ "_" ++ ts ++ pySuffix (pathName dest)]

/-- The numbered rename candidate (line 223): the initial candidate with
an additional integer counter before the extension. -/
def renameNumCand (dest : Path) (ts : String) (k : Nat) : Path :=
  pathParent dest ++
    [pyStem (pathName dest) ++ "_" ++ ts ++ "_" ++ Nat.repr k ++ pySuffix (pathName dest)]

/-- The destination synthesized by rename mode (lines 213-225): the
initial candidate if it does not exist, otherwise the first numbered
candidate, counting from 1, that does not exist. -/
def rename_dest (fs : FS) (dest : Path) (timestamp : String) : Path :=
  if fs.pathExists (renameFirstCand dest timestamp) then
    renameNumCand dest timestamp
      (findFreeIdx fs (renameNumCand dest timestamp) (fs.entries.length + 1) 1)
  else renameFirstCand dest timestamp

/-- `FileOrganizer.handle_duplicate` (lines 168-235). The size-probing
`try` block only affects the rendered warning text and is omitted from
the structured log. In rename mode the uncaught `src.stat()` may raise. -/
def handle_duplicate (cfg : OrganizerConfig) (s : EngineState)
    (src dest : Path) (is_directory : Bool) :
    ExceptSt ((Bool × Option Path) × EngineState) :=
  let item_type := if is_directory then "directory" else "file"
  let s := elog s (.duplicateFound item_type (pathName dest)) .warning
  match cfg.duplicate_mode with
  | .skip =>
    let s := elog s (.skippingDuplicate item_type) .info
    .ok ((false, none),
      { s with stats := { s.stats with files_skipped := s.stats.files_skipped + 1 } })
  | .overwrite =>
    .ok ((true, some dest), elog s (.overwritingExisting item_type) .warning)
  | .rename =>
    match s.fs.stat src with
    | none => .error ("stat failed", s)
    | some (t, _) =>
      let new_dest := rename_dest s.fs dest (fmtTimestamp t)
      let s := elog s (.renamingTo (pathName new_dest)) .info
      .ok ((true, some new_dest),
        { s with stats := { s.stats with files_renamed := s.stats.files_renamed + 1 } })
  | .interactive =>
    let s := elog s (.interactiveNotSupported item_type) .warning
    .ok ((false, none),
      { s with stats := { s.stats with files_skipped := s.stats.files_skipped + 1 } })

/-- Steps 4-5 of the mover (lines 274-290): the dry-run simulation, or
the year-directory creation followed by the move and counter update. -/
def move_item_fin (cfg : OrganizerConfig) (s : EngineState) (item : Path)
    (is_directory : Bool) (item_type : String) (dest year_dir : Path) :
    ExceptSt (Bool × EngineState) :=
  if cfg.dry_run then
    .ok (true, elog s (.wouldMove item_type (pathName item) dest) .info)
  else
    let fs1 := s.fs.mkdirp year_dir
    match fs1.doMove item dest with
    | none => .error ("move failed", { s with fs := fs1 })
    | some fs2 =>
      let s := elog { s with fs := fs2 } (.movedMsg item_type (pathName item) dest) .success
      if is_directory then
        .ok (true, { s with stats := { s.stats with dirs_moved := s.stats.dirs_moved + 1 } })
      else
        .ok (true, { s with stats := { s.stats with files_moved := s.stats.files_moved + 1 } })

/-- The `try` block of `FileOrganizer.move_item` (lines 252-290). -/
def move_item_body (cfg : OrganizerConfig) (s : EngineState) (item : Path)
    (is_directory : Bool) : ExceptSt (Bool × EngineState) :=
  let r := get_item_year s item
  match r.1, r.2 with
  | none, s =>
    let s := elog s (.skippingNoDate (pathName item)) .warning
    .ok (false,
      { s with stats := { s.stats with files_skipped := s.stats.files_skipped + 1 } })
  | some year, s =>
    let year_dir := cfg.target_dir ++ [Nat.repr year]
    let dest := year_dir ++ [pathName item]
    let item_type := if is_directory then "directory" else "file"
    if s.fs.pathExists dest then
      match handle_duplicate cfg s item dest is_directory with
      | .error e => .error e
      | .ok ((should_move, new_dest), s) =>
        if should_move then
          move_item_fin cfg s item is_directory item_type (new_dest.getD dest) year_dir
        else
          .ok (false, s)
    else
      move_item_fin cfg s item is_directory item_type dest year_dir

/-- `FileOrganizer.move_item` (lines 237-295): the `try` body with its
`except` handler, which logs the error with the item name and increments
the error counter. -/
def move_item (cfg : OrganizerConfig) (s : EngineState) (item : Path)
    (is_directory : Bool) : Bool × EngineState :=
  match move_item_body cfg s item is_directory with
  | .ok r => r
  | .error (e, s) =>
    let s := elog s (.errorProcessing (pathName item) e) .error
    (false, { s with stats := { s.stats with errors := s.stats.errors + 1 } })

/-- The filtering loop of `organize` (lines 321-331). -/
def filterItems (cfg : OrganizerConfig) :
    List Path → EngineState → List (Path × Bool) × EngineState
  | [], s => ([], s)
  | item :: rest, s =>
    if s.cancelled then ([], s)
    else
      let is_dir := s.fs.isDirB item
      let r := should_process_item cfg s item is_dir
      if r.1 then
        let tl := filterItems cfg rest r.2
        ((item, is_dir) :: tl.1, tl.2)
      else
        let s :=
          if cfg.verbose then elog r.2 (.skippingFiltered (pathName item)) .info else r.2
        filterItems cfg rest s

/-- The processing loop of `organize` (lines 337-348). -/
def processItems (cfg : OrganizerConfig) (total : Nat) :
    Nat → List (Path × Bool) → EngineState → EngineState
  | _, [], s => s
  | idx, (item, is_dir) :: rest, s =>
    if s.cancelled then elog s .operationCancelled .warning
    else
      let s := eprogress s idx total
      let item_type := if is_dir then "directory" else "file"
      let s :=
        if cfg.verbose || !cfg.dry_run then
          elog s (.processingItem idx total item_type (pathName item)) .info
        else s
      processItems cfg total (idx + 1) rest (move_item cfg s item is_dir).2

/-- The summary block of `organize` (lines 350-369). -/
def summaryLogs (s : EngineState) (dry : Bool) : EngineState :=
  let s := elog s .separatorMsg .info
  let s := elog s .summaryMsg .info
  let s := elog s .separatorMsg .info
  let s := if s.stats.files_moved > 0 then elog s (.filesMovedMsg s.stats.files_moved) .success else s
  let s := if s.stats.dirs_moved > 0 then elog s (.dirsMovedMsg s.stats.dirs_moved) .success else s
  let s := if s.stats.files_renamed > 0 then elog s (.filesRenamedMsg s.stats.files_renamed) .warning else s
  let s := if s.stats.files_skipped > 0 then elog s (.filesSkippedMsg s.stats.files_skipped) .warning else s
  let s := if s.stats.errors > 0 then elog s (.errorsMsg s.stats.errors) .error else s
  let s := elog s .separatorMsg .info
  if dry then elog s .dryRunReminder .warning else s

/-- The state at the top of `organize`: fresh statistics, cleared
cancellation flag, and empty observable streams for this run. -/
def initState (fs : FS) : EngineState :=
  { fs := fs, stats := {}, logs := [], progressEvents := [], cancelled := false }

/-- `FileOrganizer.organize` (lines 297-371). -/
def organize (cfg : OrganizerConfig) (fs0 : FS) : OrganizerStats × EngineState :=
  let s := initState fs0
  let s := elog s .startingMsg .info
  let s := elog s (.sourceMsg cfg.source_dir) .info
  let s := elog s (.targetMsg cfg.target_dir) .info
  let s := if cfg.dry_run then elog s .dryRunNotice .warning else s
  match s.fs.iterdir cfg.source_dir with
  | .error e =>
    let s := elog s (.errorReadingSource e) .error
    let s := { s with stats := { s.stats with errors := s.stats.errors + 1 } }
    (s.stats, s)
  | .ok items =>
    let r := filterItems cfg items s
    let total := r.1.length
    let s := elog r.2 (.processingCount total) .info
    let s := processItems cfg total 1 r.1 s
    let s := summaryLogs s cfg.dry_run
    (s.stats, s)

/-! ### Auxiliary definitions used by the verification -/

/-- Numeric value of a decimal digit character. -/
def digitVal (c : Char) : Nat := c.toNat - 48

/-- Value of a big-endian decimal digit string. -/
def digitsVal (cs : List Char) : Nat := cs.foldl (fun a c => 10 * a + digitVal c) 0

/-- Recognizes the log emission of a rename decision. -/
def isRenLog : LogMsg × LogLevel → Bool
  | (.renamingTo _, _) => true
  | _ => false

/-- Recognizes the log emissions of the three skip decisions: a skip-mode
duplicate, the interactive fallback, and an unresolved year. -/
def isSkipLog : LogMsg × LogLevel → Bool
  | (.skippingDuplicate _, _) => true
  | (.interactiveNotSupported _, _) => true
  | (.skippingNoDate _, _) => true
  | _ => false

/-- Number of rename-decision log emissions. -/
def renCount (logs : List (LogMsg × LogLevel)) : Nat := (logs.filter isRenLog).length

/-- Number of skip-decision log emissions. -/
def skipCount (logs : List (LogMsg × LogLevel)) : Nat := (logs.filter isSkipLog).length

/-- Between two states of one run, the rename and skip counters advance
exactly with the rename-decision and skip-decision log emissions. -/
def Tracks (s s₂ : EngineState) : Prop :=
  s₂.stats.files_renamed + renCount s.logs = s.stats.files_renamed + renCount s₂.logs ∧
  s₂.stats.files_skipped + skipCount s.logs = s.stats.files_skipped + skipCount s₂.logs

/-- Between two states: the filesystem and the two move counters are
untouched. -/
def DryFrame (s s₂ : EngineState) : Prop :=
  s₂.fs = s.fs ∧ s₂.stats.files_moved = s.stats.files_moved ∧
  s₂.stats.dirs_moved = s.stats.dirs_moved

/-- Invariant carried across every step of a run: counters track their
log emissions, the cancellation flag is untouched, and under dry-run the
filesystem and move counters are untouched. -/
def RunStep (dry : Bool) (s s₂ : EngineState) : Prop :=
  Tracks s s₂ ∧ s₂.cancelled = s.cancelled ∧ (dry = true → DryFrame s s₂)

/-- The engine state carried by either outcome of a fallible step. -/
def exceptState {α : Type} : Except (String × EngineState) (α × EngineState) → EngineState
  | .ok (_, s) => s
  | .error (_, s) => s

/-- The state an item's processing-loop iteration passes to `move_item`:
the progress event and the optional per-item notice applied to `s`. -/
def stepState (cfg : OrganizerConfig) (total idx : Nat) (item : Path) (b : Bool)
    (s : EngineState) : EngineState :=
  if cfg.verbose || !cfg.dry_run then
    elog (eprogress s idx total)
      (.processingItem idx total (if b then "directory" else "file") (pathName item)) .info
  else eprogress s idx total

/-! Concrete worlds used to exhibit counterexamples and to instantiate the
hypotheses of the claim theorems. -/

/-- A directory entry whose mtime is never consulted. -/
def exDir : Entry := ⟨true, none, 0⟩

/-- A mid-June timestamp in year `y`. -/
def exDT (y : Nat) : DateTime := ⟨y, 6, 15, 10, 11, 12⟩

/-- Config with a file-type filter that excludes `a.pdf`. -/
def exCfgC3 : OrganizerConfig :=
  { source_dir := ["s"], target_dir := ["s"], dry_run := false, files_only := false,
    verbose := false, duplicate_mode := .skip, included_folders := none,
    excluded_folders := none, target_year := none, file_types := some ["txt"] }

/-- Source holding exactly one pdf file. -/
def exFSC3 : FS :=
  { entries := [(["s"], exDir), (["s", "a.pdf"], ⟨false, some (exDT 2020), 5⟩)],
    failMoves := [] }

/-- Config with an allow-list and a year filter. -/
def exCfgC4 : OrganizerConfig :=
  { exCfgC3 with
    file_types := none
    included_folders := some ["keep"]
    target_year := some 2019 }

/-- Source holding one allow-listed directory whose year is 2020. -/
def exFSC4 : FS :=
  { entries := [(["s"], exDir), (["s", "keep"], ⟨true, some (exDT 2020), 0⟩)],
    failMoves := [] }

/-- Base config without filters, skip mode. -/
def wCfg : OrganizerConfig := { exCfgC3 with file_types := none }

/-- Source with one file of year 2020 and an existing colliding destination. -/
def wFS : FS :=
  { entries := [(["s"], exDir),
      (["s", "report.pdf"], ⟨false, some (exDT 2020), 10⟩),
      (["s", "2020"], exDir),
      (["s", "2020", "report.pdf"], ⟨false, some (exDT 2019), 20⟩)],
    failMoves := [] }

/-- Source with a file whose stat raises. -/
def wBadFS : FS :=
  { entries := [(["s"], exDir), (["s", "g"], ⟨false, none, 0⟩)], failMoves := [] }

/-- Source with one text file whose move into the year directory raises. -/
def wErrFS : FS :=
  { entries := [(["s"], exDir), (["s", "a.txt"], ⟨false, some (exDT 2021), 3⟩)],
    failMoves := [(["s", "a.txt"], ["s", "2021", "a.txt"])] }

/-- The engine state at the point the move of `a.txt` raises: the year
directory has already been created. -/
def wErrS1 : EngineState :=
  { fs := wErrFS.mkdirp ["s", "2021"], stats := {}, logs := [], progressEvents := [],
    cancelled := false }

/-- Collision world in which the move of the renamed destination raises. -/
def wRenFS : FS :=
  { entries := [(["s"], exDir),
      (["s", "report.pdf"], ⟨false, some (exDT 2020), 10⟩),
      (["s", "2020"], exDir),
      (["s", "2020", "report.pdf"], ⟨false, some (exDT 2019), 20⟩)],
    failMoves := [(["s", "report.pdf"], ["s", "2020", "report_20200615_101112.pdf"])] }

/-- Statistics with a single counted error and nothing else. -/
def statsOneError : OrganizerStats :=
  { files_moved := 0, files_renamed := 0, files_skipped := 0, dirs_moved := 0, errors := 1 }

/-- Interactive-mode variant of the base config. -/
def wCfgInter : OrganizerConfig := { wCfg with duplicate_mode := .interactive }

/-- Rename-mode variant of the base config. -/
def wCfgRen : OrganizerConfig := { wCfg with duplicate_mode := .rename }

/-- Config whose allow-list and deny-list both name `both`. -/
def wCfgBoth : OrganizerConfig :=
  { wCfg with
    included_folders := some ["both"]
    excluded_folders := some ["both"] }

/-- Config with allow-list `x` only. -/
def wCfgAllowX : OrganizerConfig := { wCfg with included_folders := some ["x"] }

/-- Config with only a target-year filter of 2019. -/
def exCfgC4y : OrganizerConfig :=
  { exCfgC3 with
    file_types := none
    target_year := some 2019 }

/-- Source holding one file of year 2019. -/
def exFSC4y : FS :=
  { entries := [(["s"], exDir), (["s", "f.txt"], ⟨false, some (exDT 2019), 1⟩)],
    failMoves := [] }

/-! ### Arithmetic facts about decimal rendering -/

lemma digitsVal_append_singleton (cs : List Char) (c : Char) :
    digitsVal (cs ++ [c]) = 10 * digitsVal cs + digitVal c := by
  simp [digitsVal, List.foldl_append]

lemma digitVal_digitChar (d : Nat) (hd : d < 10) : digitVal (Nat.digitChar d) = d := by
  interval_cases d <;> decide

lemma toDigitsCore_acc (f : Nat) : ∀ (n : Nat) (acc : List Char),
    Nat.toDigitsCore 10 f n acc = Nat.toDigitsCore 10 f n [] ++ acc := by
  induction f with
  | zero => intro n acc; simp [Nat.toDigitsCore]
  | succ f ih =>
    intro n acc
    simp only [Nat.toDigitsCore]
    by_cases h : n / 10 = 0
    · simp [h]
    · simp only [if_neg h]
      rw [ih (n / 10) (Nat.digitChar (n % 10) :: acc),
          ih (n / 10) [Nat.digitChar (n % 10)], List.append_assoc]
      rfl

lemma digitsVal_toDigitsCore (f : Nat) : ∀ n : Nat, n < f →
    digitsVal (Nat.toDigitsCore 10 f n []) = n := by
  induction f with
  | zero => intro n hn; omega
  | succ f ih =>
    intro n hn
    simp only [Nat.toDigitsCore]
    by_cases h : n / 10 = 0
    · have hlt : n < 10 := by omega
      simp only [if_pos h]
      have hone : digitsVal [Nat.digitChar (n % 10)] = digitVal (Nat.digitChar (n % 10)) := by
        simp [digitsVal]
      rw [hone, digitVal_digitChar (n % 10) (Nat.mod_lt n (by omega))]
      omega
    · simp only [if_neg h]
      rw [toDigitsCore_acc, digitsVal_append_singleton, ih (n / 10) (by omega),
          digitVal_digitChar (n % 10) (Nat.mod_lt n (by omega))]
      omega

lemma digitsVal_repr (n : Nat) : digitsVal (Nat.repr n).data = n := by
  show digitsVal ((Nat.toDigits 10 n).asString).data = n
  have h : ((Nat.toDigits 10 n).asString).data = Nat.toDigits 10 n := rfl
  rw [h]
  exact digitsVal_toDigitsCore (n + 1) n (Nat.lt_succ_self n)

lemma repr_injective {m n : Nat} (h : Nat.repr m = Nat.repr n) : m = n := by
  have hv := congrArg (fun s => digitsVal s.data) h
  simpa [digitsVal_repr] using hv

/-! ### The rename candidate loop terminates on a fresh name -/

lemma pathExists_iff_mem (fs : FS) (p : Path) :
    fs.pathExists p = true ↔ p ∈ fs.entries.map Prod.fst := by
  simp only [FS.pathExists, FS.lookup]
  rcases h : fs.entries.find? (fun e => decide (e.1 = p)) with _ | pe
  · rw [h]
    simp only [Option.map_none', Option.isSome_none]
    refine ⟨fun hh => absurd hh (by decide), fun hmem => ?_⟩
    exfalso
    rw [List.find?_eq_none] at h
    rw [List.mem_map] at hmem
    obtain ⟨x, hx, rfl⟩ := hmem
    have hfx := h x hx
    simp only [decide_eq_true_eq] at hfx
    exact hfx trivial
  · rw [h]
    simp only [Option.map_some', Option.isSome_some, true_iff]
    have hmem := List.mem_of_find?_eq_some h
    have hp := List.find?_some h
    rw [decide_eq_true_eq] at hp
    rw [List.mem_map]
    exact ⟨pe, hmem, hp⟩

lemma findFreeIdx_shape (fs : FS) (mk : Nat → Path) :
    ∀ fuel start, start ≤ findFreeIdx fs mk fuel start ∧
      ∀ j, start ≤ j → j < findFreeIdx fs mk fuel start → fs.pathExists (mk j) = true := by
  intro fuel
  induction fuel with
  | zero =>
    intro start
    refine ⟨by simp [findFreeIdx], fun j h1 h2 => ?_⟩
    simp only [findFreeIdx] at h2
    omega
  | succ fuel ih =>
    intro start
    simp only [findFreeIdx]
    by_cases h : fs.pathExists (mk start)
    · simp only [if_pos h]
      obtain ⟨h1, h2⟩ := ih (start + 1)
      refine ⟨by omega, fun j hj1 hj2 => ?_⟩
      rcases Nat.eq_or_lt_of_le hj1 with rfl | hlt
      · exact h
      · exact h2 j hlt hj2
    · simp only [if_neg h]
      exact ⟨le_refl _, fun j h1 h2 => by omega⟩

lemma findFreeIdx_free (fs : FS) (mk : Nat → Path) :
    ∀ fuel start, (∃ j, start ≤ j ∧ j < start + fuel ∧ fs.pathExists (mk j) = false) →
      fs.pathExists (mk (findFreeIdx fs mk fuel start)) = false := by
  intro fuel
  induction fuel with
  | zero => rintro start ⟨j, h1, h2, _⟩; omega
  | succ fuel ih =>
    rintro start ⟨j, h1, h2, h3⟩
    simp only [findFreeIdx]
    by_cases h : fs.pathExists (mk start)
    · simp only [if_pos h]
      apply ih
      refine ⟨j, ?_, by omega, h3⟩
      rcases Nat.eq_or_lt_of_le h1 with rfl | hlt
      · rw [h] at h3; exact absurd h3 (by simp)
      · omega
    · simp only [if_neg h]
      simp only [Bool.not_eq_true] at h
      exact h

lemma exists_free_cand (fs : FS) (mk : Nat → Path) (hinj : Function.Injective mk) (start : Nat) :
    ∃ j, start ≤ j ∧ j < start + (fs.entries.length + 1) ∧ fs.pathExists (mk j) = false := by
  by_contra hcon
  push_neg at hcon
  have hall : ∀ j, start ≤ j → j < start + (fs.entries.length + 1) →
      mk j ∈ (fs.entries.map Prod.fst).toFinset := by
    intro j h1 h2
    have hne := hcon j h1 h2
    have hex : fs.pathExists (mk j) = true := by
      cases hb : fs.pathExists (mk j)
      · exact absurd hb hne
      · rfl
    rw [List.mem_toFinset]
    exact (pathExists_iff_mem fs (mk j)).mp hex
  have hcard := Finset.card_le_card_of_injOn mk
    (fun a ha => by
      rw [Finset.mem_Ico] at ha
      exact hall a ha.1 ha.2)
    (fun a _ b _ hab => hinj hab)
    (s := Finset.Ico start (start + (fs.entries.length + 1)))
  rw [Nat.card_Ico] at hcard
  have hle : ((fs.entries.map Prod.fst).toFinset).card ≤ fs.entries.length := by
    calc ((fs.entries.map Prod.fst).toFinset).card
        ≤ (fs.entries.map Prod.fst).length := (fs.entries.map Prod.fst).toFinset_card_le
      _ = fs.entries.length := by simp
  omega

lemma renameNumCand_injective (dest : Path) (ts : String) :
    Function.Injective (renameNumCand dest ts) := by
  intro a b hab
  simp only [renameNumCand] at hab
  have h1 := List.append_cancel_left hab
  have h2 : pyStem (pathName dest) ++ "_" ++ ts ++ "_" ++ Nat.repr a ++ pySuffix (pathName dest)
      = pyStem (pathName dest) ++ "_" ++ ts ++ "_" ++ Nat.repr b ++ pySuffix (pathName dest) := by
    simpa using h1
  have h3 := congrArg String.data h2
  simp only [String.data_append, List.append_assoc] at h3
  have h4 := List.append_cancel_left (List.append_cancel_left
    (List.append_cancel_left (List.append_cancel_left h3)))
  have h5 := List.append_cancel_right h4
  have h6 := congrArg digitsVal h5
  rwa [digitsVal_repr, digitsVal_repr] at h6

lemma rename_dest_not_exists (fs : FS) (dest : Path) (ts : String) :
    fs.pathExists (rename_dest fs dest ts) = false := by
  unfold rename_dest
  by_cases h : fs.pathExists (renameFirstCand dest ts)
  · simp only [if_pos h]
    exact findFreeIdx_free fs _ _ 1
      (exists_free_cand fs _ (renameNumCand_injective dest ts) 1)
  · simp only [if_neg h]
    simpa using h

lemma rename_dest_shape (fs : FS) (dest : Path) (ts : String) :
    (fs.pathExists (renameFirstCand dest ts) = false ∧
      rename_dest fs dest ts = renameFirstCand dest ts) ∨
    (fs.pathExists (renameFirstCand dest ts) = true ∧ ∃ k, 1 ≤ k ∧
      rename_dest fs dest ts = renameNumCand dest ts k ∧
      ∀ j, 1 ≤ j → j < k → fs.pathExists (renameNumCand dest ts j) = true) := by
  by_cases h : fs.pathExists (renameFirstCand dest ts)
  · right
    refine ⟨h, findFreeIdx fs (renameNumCand dest ts) (fs.entries.length + 1) 1, ?_, ?_, ?_⟩
    · exact (findFreeIdx_shape fs _ (fs.entries.length + 1) 1).1
    · simp [rename_dest, h]
    · exact fun j h1 h2 => (findFreeIdx_shape fs _ (fs.entries.length + 1) 1).2 j h1 h2
  · left
    exact ⟨by simpa using h, by simp [rename_dest, h]⟩

/-! ### The run-step invariant is preserved by every engine operation -/

@[simp] lemma elog_fs (s : EngineState) (m : LogMsg) (lv : LogLevel) :
    (elog s m lv).fs = s.fs := rfl

@[simp] lemma elog_stats (s : EngineState) (m : LogMsg) (lv : LogLevel) :
    (elog s m lv).stats = s.stats := rfl

@[simp] lemma elog_cancelled (s : EngineState) (m : LogMsg) (lv : LogLevel) :
    (elog s m lv).cancelled = s.cancelled := rfl

@[simp] lemma elog_logs (s : EngineState) (m : LogMsg) (lv : LogLevel) :
    (elog s m lv).logs = s.logs ++ [(m, lv)] := rfl

@[simp] lemma eprogress_fs (s : EngineState) (c t : Nat) : (eprogress s c t).fs = s.fs := rfl

@[simp] lemma eprogress_stats (s : EngineState) (c t : Nat) :
    (eprogress s c t).stats = s.stats := rfl

@[simp] lemma eprogress_cancelled (s : EngineState) (c t : Nat) :
    (eprogress s c t).cancelled = s.cancelled := rfl

@[simp] lemma eprogress_logs (s : EngineState) (c t : Nat) :
    (eprogress s c t).logs = s.logs := rfl

@[simp] lemma initState_fs (fs : FS) : (initState fs).fs = fs := rfl

@[simp] lemma initState_stats (fs : FS) : (initState fs).stats = {} := rfl

@[simp] lemma initState_logs (fs : FS) : (initState fs).logs = [] := rfl

@[simp] lemma initState_cancelled (fs : FS) : (initState fs).cancelled = false := rfl

lemma renCount_append (a b : List (LogMsg × LogLevel)) :
    renCount (a ++ b) = renCount a + renCount b := by
  simp [renCount, List.filter_append]

lemma skipCount_append (a b : List (LogMsg × LogLevel)) :
    skipCount (a ++ b) = skipCount a + skipCount b := by
  simp [skipCount, List.filter_append]

lemma runStep_refl (d : Bool) (s : EngineState) : RunStep d s s :=
  ⟨⟨rfl, rfl⟩, rfl, fun _ => ⟨rfl, rfl, rfl⟩⟩

lemma runStep_trans {d : Bool} {s t u : EngineState}
    (h1 : RunStep d s t) (h2 : RunStep d t u) : RunStep d s u := by
  obtain ⟨⟨a1, a2⟩, ac, af⟩ := h1
  obtain ⟨⟨b1, b2⟩, bc, bf⟩ := h2
  refine ⟨⟨by omega, by omega⟩, by rw [bc, ac], fun hd => ?_⟩
  obtain ⟨f1, f2, f3⟩ := af hd
  obtain ⟨g1, g2, g3⟩ := bf hd
  exact ⟨g1.trans f1, g2.trans f2, g3.trans f3⟩

lemma runStep_elog_nc (d : Bool) (s : EngineState) (m : LogMsg) (lv : LogLevel)
    (h1 : isRenLog (m, lv) = false) (h2 : isSkipLog (m, lv) = false) :
    RunStep d s (elog s m lv) := by
  refine ⟨⟨?_, ?_⟩, rfl, fun _ => ⟨rfl, rfl, rfl⟩⟩ <;>
    simp [elog, renCount_append, skipCount_append, renCount, skipCount, h1, h2]

lemma runStep_if_elog_b (d : Bool) (s : EngineState) (c : Bool) (m : LogMsg) (lv : LogLevel)
    (h1 : isRenLog (m, lv) = false) (h2 : isSkipLog (m, lv) = false) :
    RunStep d s (if c then elog s m lv else s) := by
  by_cases hc : c
  · simp only [if_pos hc]; exact runStep_elog_nc d s m lv h1 h2
  · simp only [if_neg hc]; exact runStep_refl d s

lemma runStep_if_elog_p (d : Bool) (s : EngineState) (c : Prop) [Decidable c]
    (m : LogMsg) (lv : LogLevel)
    (h1 : isRenLog (m, lv) = false) (h2 : isSkipLog (m, lv) = false) :
    RunStep d s (if c then elog s m lv else s) := by
  by_cases hc : c
  · simp only [if_pos hc]; exact runStep_elog_nc d s m lv h1 h2
  · simp only [if_neg hc]; exact runStep_refl d s

lemma runStep_eprogress (d : Bool) (s : EngineState) (cur total : Nat) :
    RunStep d s (eprogress s cur total) :=
  ⟨⟨rfl, rfl⟩, rfl, fun _ => ⟨rfl, rfl, rfl⟩⟩

lemma get_item_year_snd (s : EngineState) (p : Path) :
    (get_item_year s p).2 = s ∨
    (get_item_year s p).2 = elog s (.couldNotGetYear (pathName p)) .warning := by
  unfold get_item_year
  rcases s.fs.stat p with _ | ⟨t, sz⟩
  · right; rfl
  · left; rfl

lemma get_item_year_runStep (d : Bool) (s : EngineState) (p : Path) :
    RunStep d s (get_item_year s p).2 ∧
    (get_item_year s p).2.stats = s.stats ∧ (get_item_year s p).2.fs = s.fs := by
  rcases get_item_year_snd s p with h | h <;> rw [h]
  · exact ⟨runStep_refl d s, by trivial, by trivial⟩
  · exact ⟨runStep_elog_nc d s _ _ rfl rfl, rfl, rfl⟩

lemma should_process_item_runStep (d : Bool) (cfg : OrganizerConfig) (s : EngineState)
    (item : Path) (b : Bool) :
    RunStep d s (should_process_item cfg s item b).2 ∧
    (should_process_item cfg s item b).2.stats = s.stats ∧
    (should_process_item cfg s item b).2.fs = s.fs := by
  unfold should_process_item
  by_cases h1 : pathName item ∈ reservedNames
  · simp only [if_pos h1]; exact ⟨runStep_refl d s, by trivial, by trivial⟩
  · simp only [if_neg h1]
    by_cases h2 : (b && cfg.files_only) = true
    · simp only [if_pos h2]; exact ⟨runStep_refl d s, by trivial, by trivial⟩
    · simp only [if_neg h2]
      by_cases h3 : (b && optListTruthy cfg.included_folders) = true
      · simp only [if_pos h3]; exact ⟨runStep_refl d s, by trivial, by trivial⟩
      · simp only [if_neg h3]
        by_cases h4 : (b && (optListTruthy cfg.excluded_folders &&
            decide (pathName item ∈ cfg.excluded_folders.getD []))) = true
        · simp only [if_pos h4]; exact ⟨runStep_refl d s, by trivial, by trivial⟩
        · simp only [if_neg h4]
          by_cases h5 : (!b && optListTruthy cfg.file_types &&
              !decide (lstripDot (pySuffix (pathName item)) ∈ cfg.file_types.getD [])) = true
          · simp only [if_pos h5]; exact ⟨runStep_refl d s, by trivial, by trivial⟩
          · simp only [if_neg h5]
            by_cases h6 : optNatTruthy cfg.target_year = true
            · simp only [if_pos h6]
              obtain ⟨hr, hst, hfs⟩ := get_item_year_runStep d s item
              by_cases h7 : (get_item_year s item).1 ≠ cfg.target_year
              · simp only [if_pos h7]; exact ⟨hr, by rw [hst], by rw [hfs]⟩
              · simp only [if_neg h7]; exact ⟨hr, by rw [hst], by rw [hfs]⟩
            · simp only [if_neg h6]; exact ⟨runStep_refl d s, by trivial, by trivial⟩

lemma handle_duplicate_runStep (d : Bool) (cfg : OrganizerConfig) (s : EngineState)
    (src dest : Path) (b : Bool) :
    RunStep d s (exceptState (handle_duplicate cfg s src dest b)) ∧
    (exceptState (handle_duplicate cfg s src dest b)).fs = s.fs ∧
    (exceptState (handle_duplicate cfg s src dest b)).stats.errors = s.stats.errors := by
  unfold handle_duplicate
  cases hm : cfg.duplicate_mode <;>
    rcases hst : s.fs.stat src with _ | ⟨t, sz⟩ <;>
    (try simp only [elog_fs, hst]) <;>
    refine ⟨⟨⟨?_, ?_⟩, ?_, fun _ => ⟨?_, ?_, ?_⟩⟩, ?_, ?_⟩ <;>
    (simp [exceptState, elog, renCount_append, skipCount_append, renCount, skipCount,
      isRenLog, isSkipLog]; try omega)

lemma move_item_fin_runStep (cfg : OrganizerConfig) (s : EngineState) (item : Path)
    (b : Bool) (it : String) (dest ydir : Path) :
    RunStep cfg.dry_run s (exceptState (move_item_fin cfg s item b it dest ydir)) ∧
    (exceptState (move_item_fin cfg s item b it dest ydir)).stats.errors = s.stats.errors := by
  unfold move_item_fin
  by_cases hdry : cfg.dry_run = true
  · simp only [if_pos hdry]
    refine ⟨⟨⟨?_, ?_⟩, ?_, fun _ => ⟨?_, ?_, ?_⟩⟩, ?_⟩ <;>
      (simp [exceptState, elog, renCount_append, skipCount_append, renCount, skipCount,
        isRenLog, isSkipLog]; try omega)
  · simp only [if_neg hdry]
    rcases hm : (s.fs.mkdirp ydir).doMove item dest with _ | fs2 <;> simp only [hm] <;>
      cases b <;>
      refine ⟨⟨⟨?_, ?_⟩, ?_, fun hd => absurd hd hdry⟩, ?_⟩ <;>
      (simp [exceptState, elog, renCount_append, skipCount_append, renCount, skipCount,
        isRenLog, isSkipLog]; try omega)

lemma move_item_body_runStep (cfg : OrganizerConfig) (s : EngineState) (item : Path)
    (b : Bool) :
    RunStep cfg.dry_run s (exceptState (move_item_body cfg s item b)) ∧
    (exceptState (move_item_body cfg s item b)).stats.errors = s.stats.errors := by
  unfold move_item_body
  obtain ⟨hgy, hgyst, hgyfs⟩ := get_item_year_runStep cfg.dry_run s item
  rcases hy : get_item_year s item with ⟨y, s1⟩
  rw [hy] at hgy hgyst hgyfs
  dsimp only at hgy hgyst hgyfs
  simp only [hy]
  cases y with
  | none =>
    refine ⟨runStep_trans hgy ?_, ?_⟩
    · refine ⟨⟨?_, ?_⟩, ?_, fun _ => ⟨?_, ?_, ?_⟩⟩ <;>
        (simp [exceptState, elog, renCount_append, skipCount_append, renCount, skipCount,
          isRenLog, isSkipLog]; try omega)
    · simp [exceptState, elog]
      exact congrArg OrganizerStats.errors hgyst
  | some year =>
    by_cases hex : s1.fs.pathExists (cfg.target_dir ++ [Nat.repr year] ++ [pathName item]) = true
    · simp only [if_pos hex]
      obtain ⟨hhd, hhdfs, hhderr⟩ := handle_duplicate_runStep cfg.dry_run cfg s1 item
        (cfg.target_dir ++ [Nat.repr year] ++ [pathName item]) b
      rcases hd2 : handle_duplicate cfg s1 item
          (cfg.target_dir ++ [Nat.repr year] ++ [pathName item]) b with ⟨e, s2⟩ | ⟨⟨sm, nd⟩, s2⟩ <;>
        rw [hd2] at hhd hhdfs hhderr <;> simp only [exceptState] at hhd hhdfs hhderr <;>
        simp only [hd2]
      · refine ⟨runStep_trans hgy hhd, ?_⟩
        simp only [exceptState]
        rw [hhderr]
        exact congrArg OrganizerStats.errors hgyst
      · by_cases hsm : sm = true
        · simp only [if_pos hsm]
          obtain ⟨hfin, hfinerr⟩ := move_item_fin_runStep cfg s2 item b
            (if b then "directory" else "file")
            (nd.getD (cfg.target_dir ++ [Nat.repr year] ++ [pathName item]))
            (cfg.target_dir ++ [Nat.repr year])
          refine ⟨runStep_trans hgy (runStep_trans hhd hfin), ?_⟩
          rw [hfinerr, hhderr]
          exact congrArg OrganizerStats.errors hgyst
        · simp only [if_neg hsm]
          refine ⟨runStep_trans hgy hhd, ?_⟩
          simp only [exceptState]
          rw [hhderr]
          exact congrArg OrganizerStats.errors hgyst
    · simp only [if_neg hex]
      obtain ⟨hfin, hfinerr⟩ := move_item_fin_runStep cfg s1 item b
        (if b then "directory" else "file")
        (cfg.target_dir ++ [Nat.repr year] ++ [pathName item])
        (cfg.target_dir ++ [Nat.repr year])
      refine ⟨runStep_trans hgy hfin, ?_⟩
      rw [hfinerr]
      exact congrArg OrganizerStats.errors hgyst

lemma move_item_runStep (cfg : OrganizerConfig) (s : EngineState) (item : Path) (b : Bool) :
    RunStep cfg.dry_run s (move_item cfg s item b).2 := by
  unfold move_item
  obtain ⟨hb, hberr⟩ := move_item_body_runStep cfg s item b
  rcases hbody : move_item_body cfg s item b with ⟨e, s1⟩ | ⟨rb, s1⟩ <;>
    rw [hbody] at hb hberr <;> simp only [exceptState] at hb hberr <;> simp only [hbody]
  · refine runStep_trans hb ?_
    refine ⟨⟨?_, ?_⟩, ?_, fun _ => ⟨?_, ?_, ?_⟩⟩ <;>
      (simp [elog, renCount_append, skipCount_append, renCount, skipCount,
        isRenLog, isSkipLog]; try omega)
  · exact hb

lemma filterItems_runStep (d : Bool) (cfg : OrganizerConfig) :
    ∀ (items : List Path) (s : EngineState),
      RunStep d s (filterItems cfg items s).2 ∧
      (filterItems cfg items s).2.stats = s.stats := by
  intro items
  induction items with
  | nil => intro s; exact ⟨runStep_refl d s, rfl⟩
  | cons item rest ih =>
    intro s
    unfold filterItems
    by_cases hc : s.cancelled = true
    · simp only [if_pos hc]
      exact ⟨runStep_refl d s, by trivial⟩
    · simp only [if_neg hc]
      obtain ⟨hsp, hspst, hspfs⟩ :=
        should_process_item_runStep d cfg s item (s.fs.isDirB item)
      by_cases hkeep : (should_process_item cfg s item (s.fs.isDirB item)).1 = true
      · simp only [if_pos hkeep]
        obtain ⟨ih1, ih2⟩ := ih (should_process_item cfg s item (s.fs.isDirB item)).2
        exact ⟨runStep_trans hsp ih1, by rw [ih2, hspst]⟩
      · simp only [if_neg hkeep]
        by_cases hv : cfg.verbose = true
        · simp only [if_pos hv]
          obtain ⟨ih1, ih2⟩ := ih (elog (should_process_item cfg s item (s.fs.isDirB item)).2
            (.skippingFiltered (pathName item)) .info)
          refine ⟨runStep_trans hsp (runStep_trans
            (runStep_elog_nc d _ (.skippingFiltered (pathName item)) .info rfl rfl) ih1), ?_⟩
          rw [ih2, elog_stats, hspst]
        · simp only [if_neg hv]
          obtain ⟨ih1, ih2⟩ := ih (should_process_item cfg s item (s.fs.isDirB item)).2
          exact ⟨runStep_trans hsp ih1, by rw [ih2, hspst]⟩

lemma processItems_runStep (cfg : OrganizerConfig) (total : Nat) :
    ∀ (items : List (Path × Bool)) (idx : Nat) (s : EngineState),
      RunStep cfg.dry_run s (processItems cfg total idx items s) := by
  intro items
  induction items with
  | nil => intro idx s; unfold processItems; exact runStep_refl _ s
  | cons pr rest ih =>
    rcases pr with ⟨item, is_dir⟩
    intro idx s
    unfold processItems
    by_cases hc : s.cancelled = true
    · simp only [if_pos hc]
      exact runStep_elog_nc _ s _ _ rfl rfl
    · simp only [if_neg hc]
      refine runStep_trans (runStep_eprogress _ s idx total) ?_
      refine runStep_trans (runStep_if_elog_b _ _ (cfg.verbose || !cfg.dry_run)
        (.processingItem idx total (if is_dir then "directory" else "file") (pathName item))
        .info rfl rfl) ?_
      exact runStep_trans (move_item_runStep cfg _ item is_dir) (ih (idx + 1) _)

lemma summaryLogs_runStep (d : Bool) (s : EngineState) (dry : Bool) :
    RunStep d s (summaryLogs s dry) := by
  unfold summaryLogs
  refine runStep_trans ?_ (runStep_if_elog_b _ _ _ _ _ rfl rfl)
  refine runStep_trans ?_ (runStep_elog_nc _ _ _ _ rfl rfl)
  refine runStep_trans ?_ (runStep_if_elog_p _ _ _ _ _ rfl rfl)
  refine runStep_trans ?_ (runStep_if_elog_p _ _ _ _ _ rfl rfl)
  refine runStep_trans ?_ (runStep_if_elog_p _ _ _ _ _ rfl rfl)
  refine runStep_trans ?_ (runStep_if_elog_p _ _ _ _ _ rfl rfl)
  refine runStep_trans ?_ (runStep_if_elog_p _ _ _ _ _ rfl rfl)
  refine runStep_trans ?_ (runStep_elog_nc _ _ _ _ rfl rfl)
  refine runStep_trans ?_ (runStep_elog_nc _ _ _ _ rfl rfl)
  refine runStep_trans ?_ (runStep_elog_nc _ _ _ _ rfl rfl)
  exact runStep_refl d s

lemma organize_fst_eq (cfg : OrganizerConfig) (fs0 : FS) :
    (organize cfg fs0).1 = (organize cfg fs0).2.stats := by
  unfold organize
  by_cases hdry : cfg.dry_run = true
  · simp only [if_pos hdry, elog_fs, initState_fs]
    rcases h : fs0.iterdir cfg.source_dir with e | items <;> simp [h]
  · simp only [if_neg hdry, elog_fs, initState_fs]
    rcases h : fs0.iterdir cfg.source_dir with e | items <;> simp [h]

lemma organize_runStep (cfg : OrganizerConfig) (fs0 : FS) :
    RunStep cfg.dry_run (initState fs0) (organize cfg fs0).2 := by
  unfold organize
  have hpre3 : RunStep cfg.dry_run (initState fs0)
      (elog (elog (elog (initState fs0) .startingMsg .info)
        (.sourceMsg cfg.source_dir) .info) (.targetMsg cfg.target_dir) .info) :=
    runStep_trans (runStep_elog_nc _ _ .startingMsg .info rfl rfl)
      (runStep_trans (runStep_elog_nc _ _ (.sourceMsg cfg.source_dir) .info rfl rfl)
        (runStep_elog_nc _ _ (.targetMsg cfg.target_dir) .info rfl rfl))
  by_cases hdry : cfg.dry_run = true
  · simp only [if_pos hdry]
    have hpre := runStep_trans hpre3
      (runStep_elog_nc cfg.dry_run _ .dryRunNotice .warning rfl rfl)
    simp only [elog_fs, initState_fs]
    rcases h : fs0.iterdir cfg.source_dir with e | items <;> simp only [h]
    · refine runStep_trans hpre ?_
      refine ⟨⟨?_, ?_⟩, ?_, fun _ => ⟨?_, ?_, ?_⟩⟩ <;>
        (simp [elog, renCount_append, skipCount_append, renCount, skipCount,
          isRenLog, isSkipLog]; try omega)
    · refine runStep_trans hpre ?_
      refine runStep_trans ?_ (summaryLogs_runStep _ _ cfg.dry_run)
      refine runStep_trans ?_ (processItems_runStep cfg _ _ 1 _)
      refine runStep_trans ?_ (runStep_elog_nc _ _ _ _ rfl rfl)
      exact (filterItems_runStep cfg.dry_run cfg items _).1
  · simp only [if_neg hdry]
    simp only [elog_fs, initState_fs]
    rcases h : fs0.iterdir cfg.source_dir with e | items <;> simp only [h]
    · refine runStep_trans hpre3 ?_
      refine ⟨⟨?_, ?_⟩, ?_, fun _ => ⟨?_, ?_, ?_⟩⟩ <;>
        (simp [elog, renCount_append, skipCount_append, renCount, skipCount,
          isRenLog, isSkipLog]; try omega)
    · refine runStep_trans hpre3 ?_
      refine runStep_trans ?_ (summaryLogs_runStep _ _ cfg.dry_run)
      refine runStep_trans ?_ (processItems_runStep cfg _ _ 1 _)
      refine runStep_trans ?_ (runStep_elog_nc _ _ _ _ rfl rfl)
      exact (filterItems_runStep cfg.dry_run cfg items _).1

lemma organize_main (cfg : OrganizerConfig) (fs0 : FS) :
    (organize cfg fs0).2.stats.files_renamed = renCount (organize cfg fs0).2.logs ∧
    (organize cfg fs0).2.stats.files_skipped = skipCount (organize cfg fs0).2.logs ∧
    (cfg.dry_run = true →
      (organize cfg fs0).2.fs = fs0 ∧
      (organize cfg fs0).2.stats.files_moved = 0 ∧
      (organize cfg fs0).2.stats.dirs_moved = 0) := by
  obtain ⟨⟨t1, t2⟩, tc, tf⟩ := organize_runStep cfg fs0
  simp only [initState_logs, initState_stats, initState_fs] at t1 t2 tf
  have hz : renCount ([] : List (LogMsg × LogLevel)) = 0 := rfl
  have hz2 : skipCount ([] : List (LogMsg × LogLevel)) = 0 := rfl
  have hzr : ({} : OrganizerStats).files_renamed = 0 := rfl
  have hzs : ({} : OrganizerStats).files_skipped = 0 := rfl
  refine ⟨by omega, by omega, fun hd => ?_⟩
  obtain ⟨f1, f2, f3⟩ := tf hd
  have hzm : ({} : OrganizerStats).files_moved = 0 := rfl
  have hzd : ({} : OrganizerStats).dirs_moved = 0 := rfl
  exact ⟨f1, by rw [f2]; rfl, by rw [f3]; rfl⟩

/-! ### Claim theorems -/

/-- Claim C6: for every path, the year resolver returns the calendar year
of the last-modified time when it lies in [1900, 2100] and `none` when the
timestamp cannot be read or is out of range; a stat failure is logged as a
warning and never propagated, and it routes the item to a skip in the
mover: skipped is incremented, no error is counted, and the filesystem is
untouched. -/
theorem c6_year_resolver (s : EngineState) (p : Path) :
    (∀ t sz, s.fs.stat p = some (t, sz) →
      get_item_year s p =
        (if 1900 ≤ t.year ∧ t.year ≤ 2100 then some t.year else none, s)) ∧
    (s.fs.stat p = none →
      get_item_year s p = (none, elog s (.couldNotGetYear (pathName p)) .warning)) ∧
    ((get_item_year s p).1 = none → ∀ cfg b, ∃ s₂,
      move_item cfg s p b = (false, s₂) ∧
      s₂.stats.files_skipped = s.stats.files_skipped + 1 ∧
      s₂.stats.errors = s.stats.errors ∧
      s₂.fs = s.fs ∧
      s₂.stats.files_moved = s.stats.files_moved ∧
      s₂.stats.dirs_moved = s.stats.dirs_moved) := by
  refine ⟨?_, ?_, ?_⟩
  · intro t sz h
    unfold get_item_year
    rw [h]
  · intro h
    unfold get_item_year
    rw [h]
  · intro hnone cfg b
    obtain ⟨_, hst, hfs⟩ := get_item_year_runStep true s p
    unfold move_item move_item_body
    rcases hy : get_item_year s p with ⟨y, s1⟩
    rw [hy] at hnone hst hfs
    dsimp only at hnone hst hfs
    subst hnone
    simp only [hy]
    refine ⟨_, rfl, ?_, ?_, ?_, ?_, ?_⟩ <;> simp [elog, hst, hfs]

/-- Claim C6 witness: at a file whose stat raises, the resolver logs a
warning and returns `none`, and the mover skips it without error. -/
theorem c6_witness :
    (get_item_year (initState wBadFS) ["s", "g"] =
      (none, elog (initState wBadFS) (.couldNotGetYear "g") .warning)) ∧
    (∃ s₂, move_item wCfg (initState wBadFS) ["s", "g"] false = (false, s₂) ∧
      s₂.stats.files_skipped = (initState wBadFS).stats.files_skipped + 1 ∧
      s₂.stats.errors = (initState wBadFS).stats.errors ∧
      s₂.fs = (initState wBadFS).fs ∧
      s₂.stats.files_moved = (initState wBadFS).stats.files_moved ∧
      s₂.stats.dirs_moved = (initState wBadFS).stats.dirs_moved) := by
  constructor
  · exact (c6_year_resolver (initState wBadFS) ["s", "g"]).2.1 (by rfl)
  · exact (c6_year_resolver (initState wBadFS) ["s", "g"]).2.2 (by rfl) wCfg false

/-- Claim C9: in interactive mode every collision is logged as a warning,
increments the skipped counter exactly once, touches no filesystem state,
and yields the same decision, statistics and filesystem as skip mode. -/
theorem c9_interactive_falls_back_to_skip (cfg : OrganizerConfig) (s : EngineState)
    (src dest : Path) (b : Bool) (hm : cfg.duplicate_mode = .interactive) :
    ∃ s₂, handle_duplicate cfg s src dest b = .ok ((false, none), s₂) ∧
      s₂.stats.files_skipped = s.stats.files_skipped + 1 ∧
      s₂.fs = s.fs ∧
      s₂.stats.files_renamed = s.stats.files_renamed ∧
      s₂.stats.files_moved = s.stats.files_moved ∧
      s₂.stats.dirs_moved = s.stats.dirs_moved ∧
      s₂.stats.errors = s.stats.errors ∧
      (.interactiveNotSupported (if b then "directory" else "file"), LogLevel.warning) ∈ s₂.logs ∧
      (∃ s₃, handle_duplicate { cfg with duplicate_mode := .skip } s src dest b =
        .ok ((false, none), s₃) ∧ s₃.stats = s₂.stats ∧ s₃.fs = s₂.fs) := by
  unfold handle_duplicate
  rw [hm]
  refine ⟨_, rfl, rfl, rfl, rfl, rfl, rfl, rfl, ?_, ⟨_, rfl, rfl, rfl⟩⟩
  simp [elog]

/-- Claim C9 witness: a concrete interactive-mode collision. -/
theorem c9_witness :
    ∃ s₂, handle_duplicate wCfgInter (initState wFS)
        ["s", "report.pdf"] ["s", "2020", "report.pdf"] false = .ok ((false, none), s₂) ∧
      s₂.stats.files_skipped = (initState wFS).stats.files_skipped + 1 ∧
      s₂.fs = (initState wFS).fs ∧
      s₂.stats.files_renamed = (initState wFS).stats.files_renamed ∧
      s₂.stats.files_moved = (initState wFS).stats.files_moved ∧
      s₂.stats.dirs_moved = (initState wFS).stats.dirs_moved ∧
      s₂.stats.errors = (initState wFS).stats.errors ∧
      (.interactiveNotSupported "file", LogLevel.warning) ∈ s₂.logs ∧
      (∃ s₃, handle_duplicate { wCfgInter with duplicate_mode := .skip } (initState wFS)
          ["s", "report.pdf"] ["s", "2020", "report.pdf"] false =
        .ok ((false, none), s₃) ∧ s₃.stats = s₂.stats ∧ s₃.fs = s₂.fs) :=
  c9_interactive_falls_back_to_skip wCfgInter
    (initState wFS) ["s", "report.pdf"] ["s", "2020", "report.pdf"] false rfl

/-- Claim C8: when enumerating the source fails, organize logs an error,
returns statistics that are all zero except a single counted error, leaves
the filesystem untouched, and emits no progress events. -/
theorem c8_enumeration_failure (cfg : OrganizerConfig) (fs0 : FS) (e : String)
    (h : fs0.iterdir cfg.source_dir = .error e) :
    (organize cfg fs0).1 = statsOneError ∧
    (organize cfg fs0).2.fs = fs0 ∧
    (organize cfg fs0).2.progressEvents = [] ∧
    (.errorReadingSource e, LogLevel.error) ∈ (organize cfg fs0).2.logs := by
  unfold organize
  by_cases hdry : cfg.dry_run = true
  · simp only [if_pos hdry, elog_fs, initState_fs, h]
    refine ⟨by trivial, by trivial, by trivial, ?_⟩
    simp [elog, initState]
  · simp only [if_neg hdry, elog_fs, initState_fs, h]
    refine ⟨by trivial, by trivial, by trivial, ?_⟩
    simp [elog, initState]

/-- Claim C8 witness: organizing from a missing source directory. -/
theorem c8_witness :
    (organize wCfg { entries := [], failMoves := [] }).1 = statsOneError ∧
    (organize wCfg { entries := [], failMoves := [] }).2.fs =
      { entries := [], failMoves := [] } ∧
    (organize wCfg { entries := [], failMoves := [] }).2.progressEvents = [] ∧
    (.errorReadingSource "source unreadable", LogLevel.error) ∈
      (organize wCfg { entries := [], failMoves := [] }).2.logs :=
  c8_enumeration_failure wCfg { entries := [], failMoves := [] } "source unreadable" rfl

/-- Claim C5: a directory named in both the allow-list and the deny-list
is included (given it survives the reserved-name and files-only rules that
precede the list rules), and whenever an allow-list is configured the
deny-list is never consulted for any directory. -/
theorem c5_allow_list_precedence :
    (∀ (cfg : OrganizerConfig) (s : EngineState) (item : Path),
      pathName item ∉ reservedNames →
      cfg.files_only = false →
      optListTruthy cfg.included_folders = true →
      pathName item ∈ cfg.included_folders.getD [] →
      pathName item ∈ cfg.excluded_folders.getD [] →
      (should_process_item cfg s item true).1 = true) ∧
    (∀ (cfg : OrganizerConfig) (s : EngineState) (item : Path)
      (e₁ e₂ : Option (List String)),
      optListTruthy cfg.included_folders = true →
      should_process_item { cfg with excluded_folders := e₁ } s item true =
        should_process_item { cfg with excluded_folders := e₂ } s item true) := by
  constructor
  · intro cfg s item h1 h2 h3 h4 _
    unfold should_process_item
    simp only [if_neg h1, h2, h3]
    simp [h4]
  · intro cfg s item e₁ e₂ h3
    unfold should_process_item
    by_cases h1 : pathName item ∈ reservedNames
    · simp only [if_pos h1]
    · simp only [if_neg h1, h3]
      by_cases h2 : cfg.files_only = true
      · simp [h2]
      · simp [h2]

/-- Claim C5 witness: the directory `both` is in the allow-list and the
deny-list and is kept; swapping the deny-list does not change the filter
result. -/
theorem c5_witness :
    (should_process_item wCfgBoth (initState wFS) ["s", "both"] true).1 = true ∧
    should_process_item { wCfgAllowX with excluded_folders := some ["a"] }
        (initState wFS) ["s", "d"] true =
      should_process_item { wCfgAllowX with excluded_folders := none }
        (initState wFS) ["s", "d"] true := by
  constructor
  · exact c5_allow_list_precedence.1 wCfgBoth
      (initState wFS) ["s", "both"] (by decide) rfl rfl (by decide) (by decide)
  · exact c5_allow_list_precedence.2 wCfgAllowX
      (initState wFS) ["s", "d"] (some ["a"]) none rfl

/-- Claim C7: an exception inside the per-item try block is caught by
`move_item`: it is logged with the item name and error text, it increments
the error counter by exactly one relative to the state before the item,
and the processing loop then continues with the remaining items. -/
theorem c7_per_item_errors_do_not_abort :
    (∀ (cfg : OrganizerConfig) (s : EngineState) (item : Path) (b : Bool)
      (e : String) (s₁ : EngineState),
      move_item_body cfg s item b = .error (e, s₁) →
      move_item cfg s item b =
        (false, { elog s₁ (.errorProcessing (pathName item) e) .error with
          stats := { s₁.stats with errors := s₁.stats.errors + 1 } }) ∧
      s₁.stats.errors = s.stats.errors) ∧
    (∀ (cfg : OrganizerConfig) (total idx : Nat) (item : Path) (b : Bool)
      (rest : List (Path × Bool)) (s : EngineState), s.cancelled = false →
      processItems cfg total idx ((item, b) :: rest) s =
        processItems cfg total (idx + 1) rest
          (move_item cfg (stepState cfg total idx item b s) item b).2) := by
  constructor
  · intro cfg s item b e s₁ h
    constructor
    · unfold move_item
      rw [h]
      rfl
    · have herr := (move_item_body_runStep cfg s item b).2
      rw [h] at herr
      exact herr
  · intro cfg total idx item b rest s hc
    conv_lhs => rw [processItems]
    rw [if_neg (by rw [hc]; exact Bool.false_ne_true)]
    unfold stepState
    rfl

/-- Claim C7 witness: a concrete failing move is caught, counted once, and
the loop steps on to the (empty) remainder. -/
theorem c7_witness :
    (move_item wCfg (initState wErrFS) ["s", "a.txt"] false =
      (false, { elog wErrS1 (.errorProcessing "a.txt" "move failed") .error with
        stats := { wErrS1.stats with errors := wErrS1.stats.errors + 1 } }) ∧
      wErrS1.stats.errors = (initState wErrFS).stats.errors) ∧
    processItems wCfg 1 1 [(["s", "a.txt"], false)] (initState wErrFS) =
      processItems wCfg 1 2 []
        (move_item wCfg (stepState wCfg 1 1 ["s", "a.txt"] false (initState wErrFS))
          ["s", "a.txt"] false).2 :=
  ⟨c7_per_item_errors_do_not_abort.1 wCfg (initState wErrFS) ["s", "a.txt"] false
      "move failed" wErrS1 (by rfl),
    c7_per_item_errors_do_not_abort.2 wCfg 1 1 ["s", "a.txt"] false [] (initState wErrFS) rfl⟩

lemma mkdirp_failMoves (fs : FS) (p : Path) : (fs.mkdirp p).failMoves = fs.failMoves := by
  unfold FS.mkdirp
  split <;> rfl

lemma mkdirp_lookup_of_some (fs : FS) (p q : Path) (en : Entry)
    (h : fs.lookup q = some en) : (fs.mkdirp p).lookup q = some en := by
  unfold FS.mkdirp
  split
  · exact h
  · unfold FS.lookup at h ⊢
    rcases hf : fs.entries.find? (fun x => decide (x.1 = q)) with _ | pe
    · rw [hf] at h
      simp at h
    · rw [hf] at h
      rw [List.find?_append, hf]
      simpa using h

lemma mkdirp_stat_of_some (fs : FS) (p q : Path) (r : DateTime × Nat)
    (h : fs.stat q = some r) : (fs.mkdirp p).stat q = fs.stat q := by
  unfold FS.stat at h ⊢
  rcases hlk : fs.lookup q with _ | en
  · rw [hlk] at h
    simp at h
  · rw [mkdirp_lookup_of_some fs p q en hlk]

/-- Claim C2: in rename mode with a readable source mtime, duplicate
resolution succeeds with the synthesized destination, increments the
renamed counter exactly once, leaves the filesystem untouched, and the
chosen destination does not exist at decision time; it is the
stem-plus-timestamp candidate if that is free, otherwise the first
numbered candidate counting from 1, every smaller number colliding. -/
theorem c2_rename_unique_destination (cfg : OrganizerConfig) (s : EngineState)
    (src dest : Path) (b : Bool) (t : DateTime) (sz : Nat)
    (hmode : cfg.duplicate_mode = .rename)
    (hstat : s.fs.stat src = some (t, sz)) :
    ∃ s₂, handle_duplicate cfg s src dest b =
      .ok ((true, some (rename_dest s.fs dest (fmtTimestamp t))), s₂) ∧
      s₂.stats.files_renamed = s.stats.files_renamed + 1 ∧
      s₂.fs = s.fs ∧
      s.fs.pathExists (rename_dest s.fs dest (fmtTimestamp t)) = false ∧
      ((s.fs.pathExists (renameFirstCand dest (fmtTimestamp t)) = false ∧
        rename_dest s.fs dest (fmtTimestamp t) = renameFirstCand dest (fmtTimestamp t)) ∨
       (s.fs.pathExists (renameFirstCand dest (fmtTimestamp t)) = true ∧
        ∃ k, 1 ≤ k ∧
          rename_dest s.fs dest (fmtTimestamp t) = renameNumCand dest (fmtTimestamp t) k ∧
          ∀ j, 1 ≤ j → j < k →
            s.fs.pathExists (renameNumCand dest (fmtTimestamp t) j) = true)) := by
  unfold handle_duplicate
  rw [hmode]
  simp only [elog_fs, hstat]
  exact ⟨_, rfl, rfl, rfl, rename_dest_not_exists s.fs dest (fmtTimestamp t),
    rename_dest_shape s.fs dest (fmtTimestamp t)⟩

/-- Claim C2 witness: resolving the concrete collision on
`target/2020/report.pdf` in rename mode. -/
theorem c2_witness :
    ∃ s₂, handle_duplicate wCfgRen (initState wFS) ["s", "report.pdf"]
        ["s", "2020", "report.pdf"] false =
      .ok ((true, some (rename_dest wFS ["s", "2020", "report.pdf"]
        (fmtTimestamp (exDT 2020)))), s₂) ∧
      s₂.stats.files_renamed = (initState wFS).stats.files_renamed + 1 ∧
      s₂.fs = wFS ∧
      FS.pathExists wFS (rename_dest wFS ["s", "2020", "report.pdf"]
        (fmtTimestamp (exDT 2020))) = false ∧
      ((FS.pathExists wFS (renameFirstCand ["s", "2020", "report.pdf"]
          (fmtTimestamp (exDT 2020))) = false ∧
        rename_dest wFS ["s", "2020", "report.pdf"] (fmtTimestamp (exDT 2020)) =
          renameFirstCand ["s", "2020", "report.pdf"] (fmtTimestamp (exDT 2020))) ∨
       (FS.pathExists wFS (renameFirstCand ["s", "2020", "report.pdf"]
          (fmtTimestamp (exDT 2020))) = true ∧
        ∃ k, 1 ≤ k ∧
          rename_dest wFS ["s", "2020", "report.pdf"] (fmtTimestamp (exDT 2020)) =
            renameNumCand ["s", "2020", "report.pdf"] (fmtTimestamp (exDT 2020)) k ∧
          ∀ j, 1 ≤ j → j < k →
            FS.pathExists wFS (renameNumCand ["s", "2020", "report.pdf"]
              (fmtTimestamp (exDT 2020)) j) = true)) :=
  c2_rename_unique_destination wCfgRen (initState wFS) ["s", "report.pdf"]
    ["s", "2020", "report.pdf"] false (exDT 2020) 10 rfl rfl

/-- Claim C10: in rename mode the renamed counter is incremented when the
duplicate decision is taken, before the move; if the move of the renamed
destination then raises, the item records both one rename and one error,
no move counter changes, and the item is still present at the source (the
only filesystem effect is the created year directory). -/
theorem c10_rename_counted_before_move (cfg : OrganizerConfig) (s : EngineState)
    (item : Path) (b : Bool) (t : DateTime) (sz : Nat)
    (hmode : cfg.duplicate_mode = .rename)
    (hdry : cfg.dry_run = false)
    (hstat : s.fs.stat item = some (t, sz))
    (hyr : 1900 ≤ t.year ∧ t.year ≤ 2100)
    (hex : s.fs.pathExists (cfg.target_dir ++ [Nat.repr t.year] ++ [pathName item]) = true)
    (hfail : (item, rename_dest s.fs (cfg.target_dir ++ [Nat.repr t.year] ++ [pathName item])
      (fmtTimestamp t)) ∈ s.fs.failMoves) :
    ∃ s₂, move_item cfg s item b = (false, s₂) ∧
      s₂.stats.files_renamed = s.stats.files_renamed + 1 ∧
      s₂.stats.errors = s.stats.errors + 1 ∧
      s₂.stats.files_moved = s.stats.files_moved ∧
      s₂.stats.dirs_moved = s.stats.dirs_moved ∧
      s₂.fs = s.fs.mkdirp (cfg.target_dir ++ [Nat.repr t.year]) ∧
      s₂.fs.stat item = s.fs.stat item := by
  have hgy : get_item_year s item = (some t.year, s) := by
    unfold get_item_year
    rw [hstat]
    dsimp only
    rw [if_pos hyr]
  have hmv : (s.fs.mkdirp (cfg.target_dir ++ [Nat.repr t.year])).doMove item
      (rename_dest s.fs (cfg.target_dir ++ [Nat.repr t.year] ++ [pathName item])
        (fmtTimestamp t)) = none := by
    unfold FS.doMove
    rw [if_pos (by rw [mkdirp_failMoves]; exact hfail)]
  unfold move_item move_item_body
  simp only [hgy]
  rw [if_pos hex]
  unfold handle_duplicate
  rw [hmode]
  simp only [elog_fs, hstat]
  unfold move_item_fin
  have hnd : ¬ (cfg.dry_run = true) := by
    rw [hdry]
    exact Bool.false_ne_true
  rw [if_neg hnd]
  dsimp only [elog_fs, Option.getD_some]
  rw [hmv]
  refine ⟨_, rfl, rfl, rfl, rfl, rfl, rfl, ?_⟩
  dsimp only [elog]
  exact (mkdirp_stat_of_some s.fs (cfg.target_dir ++ [Nat.repr t.year]) item (t, sz)
    hstat).trans hstat

/-- Claim C10 witness: the concrete collision world in which the move of
the renamed destination raises. -/
theorem c10_witness :
    ∃ s₂, move_item wCfgRen (initState wRenFS) ["s", "report.pdf"] false = (false, s₂) ∧
      s₂.stats.files_renamed = (initState wRenFS).stats.files_renamed + 1 ∧
      s₂.stats.errors = (initState wRenFS).stats.errors + 1 ∧
      s₂.stats.files_moved = (initState wRenFS).stats.files_moved ∧
      s₂.stats.dirs_moved = (initState wRenFS).stats.dirs_moved ∧
      s₂.fs = FS.mkdirp wRenFS (wCfgRen.target_dir ++ [Nat.repr 2020]) ∧
      s₂.fs.stat ["s", "report.pdf"] = FS.stat wRenFS ["s", "report.pdf"] :=
  c10_rename_counted_before_move wCfgRen (initState wRenFS) ["s", "report.pdf"] false
    (exDT 2020) 10 rfl rfl rfl (by decide) (by decide) (by decide)

/-- Claim C1: under dry-run the filesystem after a run is identical to
the filesystem before it, the moved-files and moved-directories counters
are zero, and the renamed and skipped counters equal the number of
rename-decision and skip-decision log emissions of the run. -/
theorem c1_dry_run_invariant (cfg : OrganizerConfig) (fs0 : FS)
    (hdry : cfg.dry_run = true) :
    (organize cfg fs0).2.fs = fs0 ∧
    (organize cfg fs0).1.files_moved = 0 ∧
    (organize cfg fs0).1.dirs_moved = 0 ∧
    (organize cfg fs0).1.files_renamed = renCount (organize cfg fs0).2.logs ∧
    (organize cfg fs0).1.files_skipped = skipCount (organize cfg fs0).2.logs := by
  obtain ⟨h1, h2, h3⟩ := organize_main cfg fs0
  obtain ⟨f1, f2, f3⟩ := h3 hdry
  rw [organize_fst_eq]
  exact ⟨f1, f2, f3, h1, h2⟩

/-- Claim C1 witness: a dry run over the collision world changes nothing
on disk and counts one rename decision. -/
theorem c1_witness :
    (organize { wCfgRen with dry_run := true } wFS).2.fs = wFS ∧
    (organize { wCfgRen with dry_run := true } wFS).1.files_moved = 0 ∧
    (organize { wCfgRen with dry_run := true } wFS).1.dirs_moved = 0 ∧
    (organize { wCfgRen with dry_run := true } wFS).1.files_renamed =
      renCount (organize { wCfgRen with dry_run := true } wFS).2.logs ∧
    (organize { wCfgRen with dry_run := true } wFS).1.files_skipped =
      skipCount (organize { wCfgRen with dry_run := true } wFS).2.logs :=
  c1_dry_run_invariant { wCfgRen with dry_run := true } wFS rfl

/-- Claim C3 counterexample: a discovered pdf is excluded by the
file-type filter, yet the run ends with the skipped counter at zero, so
filtered-out items are not counted as skipped. -/
theorem c3_counterexample :
    exFSC3.iterdir exCfgC3.source_dir = .ok [["s", "a.pdf"]] ∧
    (should_process_item exCfgC3 (initState exFSC3) ["s", "a.pdf"] false).1 = false ∧
    (organize exCfgC3 exFSC3).1.files_skipped = 0 := by
  refine ⟨rfl, by decide, by decide⟩

/-- Claim C3 amended: the skipped counter counts exactly the skip
decisions taken during processing — duplicate skips, interactive
fallbacks and unresolved-year skips, one per emitted skip log — while
filtering excludes items without touching any counter. -/
theorem c3_skipped_counts_processing_skips_only (cfg : OrganizerConfig) (fs0 : FS) :
    (organize cfg fs0).1.files_skipped = skipCount (organize cfg fs0).2.logs ∧
    (∀ (items : List Path) (s : EngineState),
      (filterItems cfg items s).2.stats = s.stats) := by
  constructor
  · rw [organize_fst_eq]
    exact (organize_main cfg fs0).2.1
  · intro items s
    exact (filterItems_runStep true cfg items s).2

/-- Claim C4 counterexample: with a target-year filter of 2019, an
allow-listed directory resolving to year 2020 is still kept by the filter
and enters the kept list. -/
theorem c4_counterexample :
    exCfgC4.target_year = some 2019 ∧
    (get_item_year (initState exFSC4) ["s", "keep"]).1 = some 2020 ∧
    (should_process_item exCfgC4 (initState exFSC4) ["s", "keep"] true).1 = true ∧
    (filterItems exCfgC4 [["s", "keep"]] (initState exFSC4)).1 =
      [(["s", "keep"], true)] := by
  refine ⟨rfl, by decide, by decide, by decide⟩

/-- Claim C4 amended: when a target-year filter is configured, any kept
item that is not a directory decided by a configured allow-list has a
resolved year equal to the filter value; directories are decided solely
by allow-list membership when an allow-list is configured, bypassing the
year filter. -/
theorem c4_year_filter_except_allow_list :
    (∀ (cfg : OrganizerConfig) (s : EngineState) (item : Path) (b : Bool),
      optNatTruthy cfg.target_year = true →
      ¬(b = true ∧ optListTruthy cfg.included_folders = true) →
      (should_process_item cfg s item b).1 = true →
      (get_item_year s item).1 = cfg.target_year) ∧
    (∀ (cfg : OrganizerConfig) (s : EngineState) (item : Path),
      pathName item ∉ reservedNames →
      cfg.files_only = false →
      optListTruthy cfg.included_folders = true →
      should_process_item cfg s item true =
        (decide (pathName item ∈ cfg.included_folders.getD []), s)) := by
  constructor
  · intro cfg s item b hty hnab hkeep
    unfold should_process_item at hkeep
    by_cases h1 : pathName item ∈ reservedNames
    · rw [if_pos h1] at hkeep
      exact absurd hkeep (by simp)
    · rw [if_neg h1] at hkeep
      by_cases h2 : (b && cfg.files_only) = true
      · rw [if_pos h2] at hkeep
        exact absurd hkeep (by simp)
      · rw [if_neg h2] at hkeep
        have h3 : (b && optListTruthy cfg.included_folders) = false := by
          cases hb : b
          · simp
          · cases hi : optListTruthy cfg.included_folders
            · simp
            · exact absurd ⟨hb ▸ rfl, hi⟩ hnab
        rw [h3] at hkeep
        simp only [Bool.false_eq_true, if_false] at hkeep
        by_cases h4 : (b && (optListTruthy cfg.excluded_folders &&
            decide (pathName item ∈ cfg.excluded_folders.getD []))) = true
        · rw [if_pos h4] at hkeep
          exact absurd hkeep (by simp)
        · rw [if_neg h4] at hkeep
          by_cases h5 : (!b && optListTruthy cfg.file_types &&
              !decide (lstripDot (pySuffix (pathName item)) ∈ cfg.file_types.getD [])) = true
          · rw [if_pos h5] at hkeep
            exact absurd hkeep (by simp)
          · rw [if_neg h5] at hkeep
            rw [if_pos hty] at hkeep
            by_cases h6 : (get_item_year s item).1 ≠ cfg.target_year
            · rw [if_pos h6] at hkeep
              exact absurd hkeep (by simp)
            · rw [not_not] at h6
              exact h6
  · intro cfg s item h1 h2 h3
    unfold should_process_item
    rw [if_neg h1]
    rw [if_neg (by rw [h2]; simp)]
    rw [if_pos (by rw [h3]; simp)]

/-- Claim C4 amended witness: a kept file under a 2019 filter resolves to
year 2019; an allow-listed directory is decided purely by membership. -/
theorem c4_witness :
    (get_item_year (initState exFSC4y) ["s", "f.txt"]).1 = exCfgC4y.target_year ∧
    should_process_item exCfgC4 (initState exFSC4) ["s", "keep"] true =
      (decide (("keep" : String) ∈ exCfgC4.included_folders.getD []), initState exFSC4) := by
  constructor
  · exact c4_year_filter_except_allow_list.1 exCfgC4y (initState exFSC4y) ["s", "f.txt"]
      false rfl (by simp) (by decide)
  · exact c4_year_filter_except_allow_list.2 exCfgC4 (initState exFSC4) ["s", "keep"]
      (by decide) rfl rfl

end PyOrganizer


